import Mathlib

/-!
Verification of the wa-connector ingestion pipeline.

The definitions below are a shallow embedding of the TypeScript sources of
the repository: the message normalizer (`extractMessageType`,
`extractBodyText`, the timestamp handling of `messageToRow` in
`baileys-helpers.ts`), the persistence layer (`upsertChat`, `upsertContact`,
`upsertMessage`, `getChatIdByJid`, `getMessageByKey` in `db.ts`), the
`lid-mapping.update` handler and the idle-timeout completion detector of
`sync-history.ts`, and the `connection.update` close handlers of both
`sync-history.ts` and `listen.ts`.

Relational tables are modelled as lists of rows; SQL `ON CONFLICT` upserts
become insert-or-merge operations on those lists; nullable columns become
`Option`; JavaScript truthiness checks on strings and numbers are made
explicit.  Times are integers (milliseconds since epoch).
-/

namespace WaSync

/-- SQL COALESCE on two nullable values: the new value wins only if it is
non-null, otherwise the existing value is kept. -/
def coalesce {α : Type} (new old : Option α) : Option α :=
  match new with
  | some v => some v
  | none => old

/-- JavaScript truthiness of a nullable string: present and non-empty. -/
def truthy (s : Option String) : Bool :=
  match s with
  | some v => v ≠ ""
  | none => false

/-!
## Message payloads (`baileys-helpers.ts`)

A raw message-content payload, with exactly the fields inspected by
`extractMessageType` and `extractBodyText`.  Fields whose inner content is
used (text, captions) carry it as a nested `Option String`; fields checked
only for presence are `Bool`; the two view-once wrappers carry an optional
inner payload (`viewOnceMessage?.message`), hence `Option (Option Msg)`.
-/
inductive Msg : Type where
  | mk
    (conversation : Option String)
    (extendedTextMessage : Option (Option String))
    (imageMessage : Option (Option String))
    (videoMessage : Option (Option String))
    (audioMessage : Bool)
    (documentMessage : Option (Option String))
    (stickerMessage : Bool)
    (contactMessage : Bool)
    (contactsArrayMessage : Bool)
    (locationMessage : Bool)
    (liveLocationMessage : Bool)
    (reactionMessage : Bool)
    (pollCreationMessage : Bool)
    (pollCreationMessageV3 : Bool)
    (viewOnceMessage : Option (Option Msg))
    (viewOnceMessageV2 : Option (Option Msg))

def Msg.conversation : Msg → Option String
  | .mk c _ _ _ _ _ _ _ _ _ _ _ _ _ _ _ => c

def Msg.extendedTextMessage : Msg → Option (Option String)
  | .mk _ e _ _ _ _ _ _ _ _ _ _ _ _ _ _ => e

def Msg.imageMessage : Msg → Option (Option String)
  | .mk _ _ i _ _ _ _ _ _ _ _ _ _ _ _ _ => i

def Msg.videoMessage : Msg → Option (Option String)
  | .mk _ _ _ v _ _ _ _ _ _ _ _ _ _ _ _ => v

def Msg.audioMessage : Msg → Bool
  | .mk _ _ _ _ a _ _ _ _ _ _ _ _ _ _ _ => a

def Msg.documentMessage : Msg → Option (Option String)
  | .mk _ _ _ _ _ d _ _ _ _ _ _ _ _ _ _ => d

def Msg.stickerMessage : Msg → Bool
  | .mk _ _ _ _ _ _ s _ _ _ _ _ _ _ _ _ => s

def Msg.contactMessage : Msg → Bool
  | .mk _ _ _ _ _ _ _ c _ _ _ _ _ _ _ _ => c

def Msg.contactsArrayMessage : Msg → Bool
  | .mk _ _ _ _ _ _ _ _ c _ _ _ _ _ _ _ => c

def Msg.locationMessage : Msg → Bool
  | .mk _ _ _ _ _ _ _ _ _ l _ _ _ _ _ _ => l

def Msg.liveLocationMessage : Msg → Bool
  | .mk _ _ _ _ _ _ _ _ _ _ l _ _ _ _ _ => l

def Msg.reactionMessage : Msg → Bool
  | .mk _ _ _ _ _ _ _ _ _ _ _ r _ _ _ _ => r

def Msg.pollCreationMessage : Msg → Bool
  | .mk _ _ _ _ _ _ _ _ _ _ _ _ p _ _ _ => p

def Msg.pollCreationMessageV3 : Msg → Bool
  | .mk _ _ _ _ _ _ _ _ _ _ _ _ _ p _ _ => p

def Msg.viewOnceMessage : Msg → Option (Option Msg)
  | .mk _ _ _ _ _ _ _ _ _ _ _ _ _ _ v _ => v

def Msg.viewOnceMessageV2 : Msg → Option (Option Msg)
  | .mk _ _ _ _ _ _ _ _ _ _ _ _ _ _ _ v => v

/-- The inner payload a view-once wrapper recurses into:
`msg.viewOnceMessage?.message ?? msg.viewOnceMessageV2?.message`
(the nullish-coalescing operator skips both a missing wrapper and a
wrapper with a missing inner message). -/
def viewOnceInner (vo1 vo2 : Option (Option Msg)) : Option Msg :=
  match vo1.bind id with
  | some m => some m
  | none => vo2.bind id

theorem sizeOf_lt_of_bind_id {vo : Option (Option Msg)} {m : Msg}
    (h : vo.bind id = some m) : sizeOf m + 2 ≤ sizeOf vo := by
  cases vo with
  | none => simp [Option.bind] at h
  | some o =>
    cases o with
    | none => simp [Option.bind] at h
    | some m0 =>
      simp [Option.bind] at h
      subst h
      simp
      omega

theorem opt_sizeOf_pos {α : Type} [SizeOf α] (o : Option α) : 1 ≤ sizeOf o := by
  cases o <;> simp only [Option.some.sizeOf_spec, Option.none.sizeOf_spec] <;> omega

theorem viewOnceInner_sizeOf_le (vo1 vo2 : Option (Option Msg)) :
    sizeOf (viewOnceInner vo1 vo2) ≤ max (sizeOf vo1) (sizeOf vo2) := by
  unfold viewOnceInner
  cases h1 : vo1.bind id with
  | some m =>
    have hle := sizeOf_lt_of_bind_id h1
    simp only [Option.some.sizeOf_spec]
    omega
  | none =>
    cases h2 : vo2.bind id with
    | some m =>
      have hle := sizeOf_lt_of_bind_id h2
      simp only [Option.some.sizeOf_spec]
      omega
    | none =>
      have p1 := opt_sizeOf_pos vo1
      simp only [Option.none.sizeOf_spec]
      omega

/-- `extractMessageType` from `baileys-helpers.ts`: classify a (possibly
null) payload into one of a closed set of type strings, checking the
content fields in the source's fixed priority order, recursing into
view-once wrappers, and returning "unknown" for a null payload or one with
no known field.  Matches the JavaScript truthiness semantics: a string
field is "present" when non-empty, an object field when non-null. -/
def extractMessageType : Option Msg → String
  | none => "unknown"
  | some m =>
    if truthy m.conversation then "text"
    else if m.extendedTextMessage.isSome then "text"
    else if m.imageMessage.isSome then "image"
    else if m.videoMessage.isSome then "video"
    else if m.audioMessage then "audio"
    else if m.documentMessage.isSome then "document"
    else if m.stickerMessage then "sticker"
    else if m.contactMessage then "contact"
    else if m.contactsArrayMessage then "contact"
    else if m.locationMessage then "location"
    else if m.liveLocationMessage then "location"
    else if m.reactionMessage then "reaction"
    else if m.pollCreationMessage || m.pollCreationMessageV3 then "poll"
    else if m.viewOnceMessage.isSome || m.viewOnceMessageV2.isSome then
      extractMessageType (viewOnceInner m.viewOnceMessage m.viewOnceMessageV2)
    else "unknown"
termination_by om => sizeOf om
decreasing_by
  cases m with
  | mk c etm img vid aud doc stk ctm cam loc llm rcm p1 p3 vo1 vo2 =>
    have h := viewOnceInner_sizeOf_le vo1 vo2
    simp [Msg.viewOnceMessage, Msg.viewOnceMessageV2]
    omega

/-- Unfolding equation of `extractMessageType` at a null payload. -/
theorem extractMessageType_none_eq : extractMessageType none = "unknown" := by
  rw [extractMessageType.eq_def]

/-- Unfolding equation of `extractMessageType` at a present payload. -/
theorem extractMessageType_some_eq (m : Msg) :
    extractMessageType (some m) =
      (if truthy m.conversation then "text"
       else if m.extendedTextMessage.isSome then "text"
       else if m.imageMessage.isSome then "image"
       else if m.videoMessage.isSome then "video"
       else if m.audioMessage then "audio"
       else if m.documentMessage.isSome then "document"
       else if m.stickerMessage then "sticker"
       else if m.contactMessage then "contact"
       else if m.contactsArrayMessage then "contact"
       else if m.locationMessage then "location"
       else if m.liveLocationMessage then "location"
       else if m.reactionMessage then "reaction"
       else if m.pollCreationMessage || m.pollCreationMessageV3 then "poll"
       else if m.viewOnceMessage.isSome || m.viewOnceMessageV2.isSome then
         extractMessageType (viewOnceInner m.viewOnceMessage m.viewOnceMessageV2)
       else "unknown") := by
  rw [extractMessageType.eq_def]

/-- `extractBodyText` from `baileys-helpers.ts`: the first present value
among conversation text, extended text, and the image/video/document
captions; null when the payload is null or none of those is present.
It does not recurse into view-once wrappers. -/
def extractBodyText (om : Option Msg) : Option String :=
  match om with
  | none => none
  | some m =>
    m.conversation.orElse (fun _ =>
      (m.extendedTextMessage.bind id).orElse (fun _ =>
        (m.imageMessage.bind id).orElse (fun _ =>
          (m.videoMessage.bind id).orElse (fun _ =>
            m.documentMessage.bind id))))

/-- The closed set of message types produced by `extractMessageType`. -/
def msgTypeList : List String :=
  ["text", "image", "video", "audio", "document", "sticker", "contact",
   "location", "reaction", "poll", "unknown"]

/-!
## Timestamp policy of `messageToRow` (`baileys-helpers.ts`)

The timestamp block of `messageToRow`: `msg.messageTimestamp` is Unix
seconds; the stored timestamp is in milliseconds.  The presence check is
the JavaScript truthiness test `if (msg?.messageTimestamp)`, so a missing
timestamp and a zero timestamp both fall to the current-time branch; a
non-zero timestamp is converted to milliseconds and clamped to the current
time when it lies strictly more than one day (86400000 ms) in the future.
-/
def messageRowTimestamp (nowMs : Int) (messageTimestamp : Option Int) : Int :=
  match messageTimestamp with
  | some t =>
    if t ≠ 0 then
      if t * 1000 > nowMs + 86400000 then nowMs else t * 1000
    else nowMs
  | none => nowMs

/-!
## Relational rows and upserts (`db.ts`)
-/

/-- A stored row of the `chats` table: serial id, unique external key
`jid`, nullable phone-linked alternate key `jid_pn`, nullable `name`,
group flag. -/
structure ChatStored where
  id : Nat
  jid : String
  jid_pn : Option String
  name : Option String
  is_group : Bool
deriving DecidableEq, Repr

/-- The input shape of `upsertChat` (`ChatRow` in `db.ts`): no id, the
database assigns one on insert. -/
structure ChatRow where
  jid : String
  jid_pn : Option String
  name : Option String
  is_group : Bool
deriving DecidableEq, Repr

/-- The `chats` table together with the serial sequence. -/
structure ChatTable where
  rows : List ChatStored
  nextId : Nat
deriving DecidableEq, Repr

/-- The `ON CONFLICT (jid) DO UPDATE` clause of `upsertChat`: alternate key
and name are coalesced, the group flag is overwritten by the new
observation. -/
def mergeChatOnConflict (old : ChatStored) (new : ChatRow) : ChatStored :=
  { old with
    jid_pn := coalesce new.jid_pn old.jid_pn,
    name := coalesce new.name old.name,
    is_group := new.is_group }

/-- `upsertChat` from `db.ts`: insert keyed on `jid`, merging on conflict,
returning the surrogate id (existing on conflict, fresh on insert). -/
def upsertChat (t : ChatTable) (r : ChatRow) : ChatTable × Nat :=
  match t.rows.find? (fun c => c.jid == r.jid) with
  | some c =>
    ({ t with
       rows := t.rows.map (fun c0 =>
         if c0.jid == r.jid then mergeChatOnConflict c0 r else c0) },
     c.id)
  | none =>
    ({ rows := t.rows ++ [{ id := t.nextId, jid := r.jid, jid_pn := r.jid_pn,
                            name := r.name, is_group := r.is_group }],
       nextId := t.nextId + 1 },
     t.nextId)

/-- A row of the `contacts` table: unique external identity key `wa_id`,
nullable phone number, nullable anonymized key `lid`, nullable display
name `push_name`. -/
structure ContactRow where
  wa_id : String
  phone_number : Option String
  lid : Option String
  push_name : Option String
deriving DecidableEq, Repr

/-- The `ON CONFLICT (wa_id) DO UPDATE` clause of `upsertContact`: phone
number, anonymized key and display name are all coalesced. -/
def mergeContactOnConflict (old new : ContactRow) : ContactRow :=
  { old with
    phone_number := coalesce new.phone_number old.phone_number,
    lid := coalesce new.lid old.lid,
    push_name := coalesce new.push_name old.push_name }

/-- `upsertContact` from `db.ts`, keyed on `wa_id`. -/
def upsertContact (rows : List ContactRow) (r : ContactRow) : List ContactRow :=
  if rows.any (fun c => c.wa_id == r.wa_id) then
    rows.map (fun c => if c.wa_id == r.wa_id then mergeContactOnConflict c r else c)
  else rows ++ [r]

/-- A row of the `messages` table (`MessageRow` in `db.ts`).  The raw
payload snapshot `metadata_json` is stored serialized and is kept opaque
here. -/
structure MessageRow where
  chat_id : Nat
  wa_message_id : String
  remote_jid : String
  participant : Option String
  participant_alt : Option String
  remote_jid_alt : Option String
  from_me : Bool
  timestamp : Int
  message_type : String
  body_text : Option String
  phone_number : Option String
  metadata_json : Option String
deriving DecidableEq, Repr

/-- The idempotency key of a message row: `(chat_id, wa_message_id)`. -/
def msgKeyMatches (cid : Nat) (wid : String) (s : MessageRow) : Bool :=
  s.chat_id == cid && s.wa_message_id == wid

/-- The `ON CONFLICT (chat_id, wa_message_id) DO UPDATE` clause of
`upsertMessage`: participant, participant_alt and remote_jid_alt are
overwritten unconditionally; body_text, phone_number and metadata_json are
coalesced; every other column (remote_jid, from_me, timestamp,
message_type, and the key itself) is left unchanged. -/
def mergeMessageOnConflict (old new : MessageRow) : MessageRow :=
  { old with
    participant := new.participant,
    participant_alt := new.participant_alt,
    remote_jid_alt := new.remote_jid_alt,
    body_text := coalesce new.body_text old.body_text,
    phone_number := coalesce new.phone_number old.phone_number,
    metadata_json := coalesce new.metadata_json old.metadata_json }

/-- `upsertMessage` from `db.ts`, keyed on `(chat_id, wa_message_id)`. -/
def upsertMessage (db : List MessageRow) (r : MessageRow) : List MessageRow :=
  if db.any (msgKeyMatches r.chat_id r.wa_message_id) then
    db.map (fun s =>
      if msgKeyMatches r.chat_id r.wa_message_id s then mergeMessageOnConflict s r else s)
  else db ++ [r]

/-- Number of stored message rows carrying a given idempotency key. -/
def countMessages (db : List MessageRow) (cid : Nat) (wid : String) : Nat :=
  (db.filter (msgKeyMatches cid wid)).length

/-- `getChatIdByJid` from `db.ts`: `SELECT id FROM chats WHERE jid = $1`,
null when no row matches. -/
def getChatIdByJid (chats : List ChatStored) (jid : String) : Option Nat :=
  (chats.find? (fun c => c.jid == jid)).map (fun c => c.id)

/-- The shape `getMessageByKey` actually returns in `db.ts`:
`{ key: { remoteJid, id }, message }` where `message` is the stored
`metadata_json` (absent when that column is null). -/
structure LookupResult where
  key_remoteJid : String
  key_id : String
  message : Option String
deriving DecidableEq, Repr

/-- `getMessageByKey` from `db.ts`: resolve the chat id from the external
key (the JavaScript guard `if (!chatId)` also treats a zero id as absent),
then look the message up by `(chat_id, wa_message_id)`; null on an unknown
chat or message. -/
def getMessageByKey (chats : List ChatStored) (msgs : List MessageRow)
    (remoteJid msgId : String) : Option LookupResult :=
  match getChatIdByJid chats remoteJid with
  | none => none
  | some chatId =>
    if chatId == 0 then none
    else
      match msgs.find? (fun s => s.chat_id == chatId && s.wa_message_id == msgId) with
      | none => none
      | some row =>
        some { key_remoteJid := remoteJid, key_id := row.wa_message_id,
               message := row.metadata_json }

/-!
## The `lid-mapping.update` handler (`sync-history.ts`)
-/

/-- JavaScript `s.replace(pat, "")` with a string pattern: remove the first
occurrence of `pat` from `s`. -/
def replaceFirst (s pat : String) : String :=
  match s.splitOn pat with
  | [] => s
  | [x] => x
  | x :: rest => x ++ String.intercalate pat rest

/-- The durable state the `lid-mapping.update` handler touches. -/
structure LidState where
  chats : ChatTable
  contacts : List ContactRow
deriving DecidableEq, Repr

/-- The `lid-mapping.update` handler of `sync-history.ts`: upsert a contact
keyed on the anonymized identifier with the derived phone number, then
`UPDATE chats SET jid_pn = pn WHERE jid = lid AND jid_pn IS NULL`. -/
def lidMappingUpdate (s : LidState) (lid pn : String) : LidState :=
  { contacts := upsertContact s.contacts
      { wa_id := lid,
        phone_number := some (replaceFirst pn "@s.whatsapp.net"),
        lid := some lid,
        push_name := none },
    chats := { s.chats with
      rows := s.chats.rows.map (fun c =>
        if c.jid == lid && c.jid_pn.isNone then { c with jid_pn := some pn } else c) } }

/-!
## Connection-close handling (`sync-history.ts` and `listen.ts`)
-/

/-- What a `connection.update` close handler decides to do. -/
inductive CloseOutcome : Type where
  | exitWith (code : Nat) (msg : String)
  | reconnectImmediate
  | reconnectAfterMs (delayMs : Nat)
deriving DecidableEq, Repr

/-- `DisconnectReason.loggedOut` of the external transport library. -/
def loggedOutCode : Nat := 401

/-- `DisconnectReason.restartRequired` of the external transport library. -/
def restartRequiredCode : Nat := 515

/-- The `connection === "close"` branch of the `connection.update` handler
in `sync-history.ts` (backfill mode): logged-out exits with status 1,
restart-required reconnects immediately, anything else exits with
status 1. -/
def syncHistoryOnClose (statusCode : Option Nat) : CloseOutcome :=
  if statusCode == some loggedOutCode then
    .exitWith 1 "[sync] Logged out. Delete auth_state/ and re-scan."
  else if statusCode == some restartRequiredCode then
    .reconnectImmediate
  else
    .exitWith 1 "[sync] Disconnected. Exiting."

/-- The `connection === "close"` branch of the `connection.update` handler
in `listen.ts` (live mode): logged-out exits with status 1,
restart-required reconnects immediately, anything else reconnects after a
5 second delay. -/
def listenOnClose (statusCode : Option Nat) : CloseOutcome :=
  if statusCode == some loggedOutCode then
    .exitWith 1 "[listen] Logged out. Delete auth_state/ and re-scan."
  else if statusCode == some restartRequiredCode then
    .reconnectImmediate
  else
    .reconnectAfterMs 5000

/-!
## Idle-completion detector (`sync-history.ts`)

`resetIdleTimer` clears any pending timer and arms a new one that fires
`done` after `IDLE_TIMEOUT_MS`.  It is called when the connection opens
and on every received batch.  The model keeps the instant the pending
timer is due and the instant completion fired, and processes a
time-ordered list of events: before handling an event the pending timer
is checked, and completion is final.
-/

/-- `IDLE_TIMEOUT_MS` from `sync-history.ts`, in milliseconds. -/
def IDLE_TIMEOUT_MS : Int := 30000

structure SyncCtl where
  idleDeadline : Option Int
  completedAt : Option Int
deriving DecidableEq, Repr

def initSyncCtl : SyncCtl := { idleDeadline := none, completedAt := none }

/-- Fire the pending idle timer if its due time has passed at instant `t`;
a session that already completed stays completed. -/
def fireIfDue (t : Int) (s : SyncCtl) : SyncCtl :=
  match s.completedAt, s.idleDeadline with
  | none, some d => if d ≤ t then { s with completedAt := some d } else s
  | _, _ => s

/-- `resetIdleTimer` from `sync-history.ts` at instant `t`: the pending
timer is replaced by one due at `t + IDLE_TIMEOUT_MS`. -/
def resetIdleTimer (t : Int) (s : SyncCtl) : SyncCtl :=
  { s with idleDeadline := some (t + IDLE_TIMEOUT_MS) }

inductive SyncEventKind : Type where
  | connectionOpen
  | historyBatch
deriving DecidableEq, Repr

/-- Both the `connection === "open"` branch and the
`messaging-history.set` handler call `resetIdleTimer`. -/
def handleSyncEvent (s : SyncCtl) (t : Int) (_k : SyncEventKind) : SyncCtl :=
  resetIdleTimer t (fireIfDue t s)

/-- Run the backfill session over a time-ordered event list, then let the
clock advance to `endT`. -/
def runSync (evs : List (Int × SyncEventKind)) (endT : Int) : SyncCtl :=
  fireIfDue endT (evs.foldl (fun s e => handleSyncEvent s e.1 e.2) initSyncCtl)

/-- The time of the last batch, or the fallback instant when there is
none. -/
def lastBatchTime (t : Int) (bs : List Int) : Int :=
  bs.foldl (fun _ b => b) t

/-- Each batch instant is no earlier than the previous one and arrives
strictly before the timer armed at the previous instant is due. -/
def chainWithin (t : Int) : List Int → Bool
  | [] => true
  | b :: rest => decide (t ≤ b) && decide (b < t + IDLE_TIMEOUT_MS) && chainWithin b rest

/-!
## Generic list lemmas for conflict-keyed updates
-/

theorem find?_map_congr {α : Type} (p : α → Bool) (g : α → α) (l : List α)
    (h : ∀ a, p (g a) = p a) :
    (l.map g).find? p = (l.find? p).map g := by
  induction l with
  | nil => rfl
  | cons a t ih =>
    cases hpa : p a with
    | true =>
      have hga : p (g a) = true := by rw [h]; exact hpa
      simp [List.find?_cons_of_pos _ hpa, List.find?_cons_of_pos _ hga]
    | false =>
      have hga : p (g a) = false := by rw [h]; exact hpa
      simp only [List.map_cons]
      rw [List.find?_cons_of_neg _ (by simp [hga]), List.find?_cons_of_neg _ (by simp [hpa])]
      exact ih

theorem filter_map_length_congr {α : Type} (p : α → Bool) (g : α → α) (l : List α)
    (h : ∀ a, p (g a) = p a) :
    ((l.map g).filter p).length = (l.filter p).length := by
  induction l with
  | nil => rfl
  | cons a t ih =>
    cases hpa : p a with
    | true =>
      have hga : p (g a) = true := by rw [h]; exact hpa
      simp [List.filter_cons, hpa, hga, ih]
    | false =>
      have hga : p (g a) = false := by rw [h]; exact hpa
      simp [List.filter_cons, hpa, hga, ih]

theorem find?_append_of_none {α : Type} (p : α → Bool) (l1 l2 : List α)
    (h : l1.find? p = none) : (l1 ++ l2).find? p = l2.find? p := by
  rw [List.find?_append, h]
  rfl

/-!
## Characterization of the upserts
-/

theorem msgKeyMatches_merge (r s : MessageRow) (cid : Nat) (wid : String) :
    msgKeyMatches cid wid (mergeMessageOnConflict s r) = msgKeyMatches cid wid s := by
  simp [msgKeyMatches, mergeMessageOnConflict]

theorem find?_upsertMessage (db : List MessageRow) (r : MessageRow) :
    (upsertMessage db r).find? (msgKeyMatches r.chat_id r.wa_message_id) =
      some (match db.find? (msgKeyMatches r.chat_id r.wa_message_id) with
            | some s => mergeMessageOnConflict s r
            | none => r) := by
  unfold upsertMessage
  by_cases h : db.any (msgKeyMatches r.chat_id r.wa_message_id) = true
  · rw [if_pos h]
    rw [find?_map_congr _ _ _ (fun (s : MessageRow) => by
      cases hps : msgKeyMatches r.chat_id r.wa_message_id s with
      | true => simp [hps, msgKeyMatches_merge]
      | false => simp [hps, msgKeyMatches_merge])]
    have hex : ∃ x, x ∈ db ∧ msgKeyMatches r.chat_id r.wa_message_id x := by
      simpa using List.any_eq_true.mp h
    have hsome : (db.find? (msgKeyMatches r.chat_id r.wa_message_id)).isSome := by
      rw [List.find?_isSome]
      exact hex
    obtain ⟨s, hs⟩ := Option.isSome_iff_exists.mp hsome
    rw [hs]
    have hps := List.find?_some hs
    simp [hps]
  · rw [if_neg h]
    have hfalse : db.any (msgKeyMatches r.chat_id r.wa_message_id) = false := by
      simpa using h
    have hnone : db.find? (msgKeyMatches r.chat_id r.wa_message_id) = none := by
      rw [List.find?_eq_none]
      intro x hx
      have hnx := List.any_eq_false.mp hfalse x hx
      simp [hnx]
    rw [find?_append_of_none _ _ _ hnone, hnone]
    have hpr : msgKeyMatches r.chat_id r.wa_message_id r = true := by
      simp [msgKeyMatches]
    simp [hpr]

theorem countMessages_upsert (db : List MessageRow) (r : MessageRow)
    (hu : countMessages db r.chat_id r.wa_message_id ≤ 1) :
    countMessages (upsertMessage db r) r.chat_id r.wa_message_id = 1 := by
  unfold countMessages upsertMessage
  by_cases h : db.any (msgKeyMatches r.chat_id r.wa_message_id) = true
  · rw [if_pos h]
    rw [filter_map_length_congr _ _ _ (fun (s : MessageRow) => by
      cases hps : msgKeyMatches r.chat_id r.wa_message_id s with
      | true => simp [hps, msgKeyMatches_merge]
      | false => simp [hps, msgKeyMatches_merge])]
    have hex : ∃ x, x ∈ db ∧ msgKeyMatches r.chat_id r.wa_message_id x := by
      simpa using List.any_eq_true.mp h
    obtain ⟨x, hx, hpx⟩ := hex
    have hmem : x ∈ db.filter (msgKeyMatches r.chat_id r.wa_message_id) := by
      rw [List.mem_filter]
      exact ⟨hx, hpx⟩
    have hpos : 0 < (db.filter (msgKeyMatches r.chat_id r.wa_message_id)).length :=
      List.length_pos.mpr (fun hnil => by rw [hnil] at hmem; simp at hmem)
    unfold countMessages at hu
    omega
  · rw [if_neg h]
    have hfalse : db.any (msgKeyMatches r.chat_id r.wa_message_id) = false := by
      simpa using h
    rw [List.filter_append]
    have hnil : db.filter (msgKeyMatches r.chat_id r.wa_message_id) = [] := by
      rw [List.filter_eq_nil_iff]
      intro x hx
      have hnx := List.any_eq_false.mp hfalse x hx
      simp [hnx]
    have hpr : msgKeyMatches r.chat_id r.wa_message_id r = true := by
      simp [msgKeyMatches]
    simp [hnil, hpr]

/-- C1 -- Message upsert is idempotent and follows the per-field merge
policy: starting from any table holding at most one row for the key,
applying `upsertMessage` twice with the same `(chat_id, wa_message_id)`
key leaves exactly one stored row for that key; relative to the row `s`
stored after the first application, the second application overwrites
participant, participant_alt and remote_jid_alt unconditionally, coalesces
body_text, phone_number and metadata_json (new null keeps the existing
value), and leaves timestamp, message_type, from_me and the chat
association unchanged (the `{ s with ... }` update touches no other
field). -/
theorem upsertMessage_idempotent_merge (db : List MessageRow) (r r2 : MessageRow)
    (hu : countMessages db r.chat_id r.wa_message_id ≤ 1)
    (hk1 : r2.chat_id = r.chat_id) (hk2 : r2.wa_message_id = r.wa_message_id) :
    countMessages (upsertMessage (upsertMessage db r) r2) r.chat_id r.wa_message_id = 1 ∧
    ∃ s, (upsertMessage db r).find? (msgKeyMatches r.chat_id r.wa_message_id) = some s ∧
      (upsertMessage (upsertMessage db r) r2).find?
          (msgKeyMatches r.chat_id r.wa_message_id) =
        some { s with
          participant := r2.participant,
          participant_alt := r2.participant_alt,
          remote_jid_alt := r2.remote_jid_alt,
          body_text := coalesce r2.body_text s.body_text,
          phone_number := coalesce r2.phone_number s.phone_number,
          metadata_json := coalesce r2.metadata_json s.metadata_json } := by
  have h1 := find?_upsertMessage db r
  have hc1 := countMessages_upsert db r hu
  have h2 := find?_upsertMessage (upsertMessage db r) r2
  rw [hk1, hk2] at h2
  have hc2 := countMessages_upsert (upsertMessage db r) r2
  rw [hk1, hk2] at hc2
  constructor
  · exact hc2 (by omega)
  · refine ⟨_, h1, ?_⟩
    rw [h2, h1]
    rfl

theorem chatKey_merge (r : ChatRow) (c : ChatStored) (j : String) :
    ((mergeChatOnConflict c r).jid == j) = (c.jid == j) := by
  simp [mergeChatOnConflict]

theorem find?_upsertChat (t : ChatTable) (r : ChatRow) :
    (upsertChat t r).1.rows.find? (fun c => c.jid == r.jid) =
      some (match t.rows.find? (fun c => c.jid == r.jid) with
            | some c => mergeChatOnConflict c r
            | none => { id := t.nextId, jid := r.jid, jid_pn := r.jid_pn,
                        name := r.name, is_group := r.is_group }) := by
  unfold upsertChat
  cases h : t.rows.find? (fun c => c.jid == r.jid) with
  | some c =>
    simp only [h]
    rw [find?_map_congr _ _ _ (fun (a : ChatStored) => by
      cases hpa : a.jid == r.jid with
      | true => simp [hpa, chatKey_merge]
      | false => simp [hpa, chatKey_merge])]
    rw [h]
    have hpc : c.jid = r.jid := by simpa using List.find?_some h
    simp [hpc]
  | none =>
    simp only [h]
    rw [find?_append_of_none _ _ _ h]
    simp

theorem contactKey_merge (r q : ContactRow) (w : String) :
    ((mergeContactOnConflict q r).wa_id == w) = (q.wa_id == w) := by
  simp [mergeContactOnConflict]

theorem find?_upsertContact (rows : List ContactRow) (r : ContactRow) :
    (upsertContact rows r).find? (fun c => c.wa_id == r.wa_id) =
      some (match rows.find? (fun c => c.wa_id == r.wa_id) with
            | some c => mergeContactOnConflict c r
            | none => r) := by
  unfold upsertContact
  by_cases h : rows.any (fun c => c.wa_id == r.wa_id) = true
  · rw [if_pos h]
    rw [find?_map_congr _ _ _ (fun (a : ContactRow) => by
      cases hpa : a.wa_id == r.wa_id with
      | true => simp [hpa, contactKey_merge]
      | false => simp [hpa, contactKey_merge])]
    have hex : ∃ x, x ∈ rows ∧ (x.wa_id == r.wa_id) := by
      simpa using List.any_eq_true.mp h
    have hsome : (rows.find? (fun c => c.wa_id == r.wa_id)).isSome := by
      rw [List.find?_isSome]
      exact hex
    obtain ⟨c, hc⟩ := Option.isSome_iff_exists.mp hsome
    rw [hc]
    have hpc : c.wa_id = r.wa_id := by simpa using List.find?_some hc
    simp [hpc]
  · rw [if_neg h]
    have hfalse : rows.any (fun c => c.wa_id == r.wa_id) = false := by
      simpa using h
    have hnone : rows.find? (fun c => c.wa_id == r.wa_id) = none := by
      rw [List.find?_eq_none]
      intro x hx
      have hnx := List.any_eq_false.mp hfalse x hx
      simpa using hnx
    rw [find?_append_of_none _ _ _ hnone, hnone]
    simp

/-- C2 -- Coalesce law for Chat and Contact upserts: after upserting `r`
and then `r2` with the same external key, the stored chat row keeps its
previous non-null `jid_pn`/`name` whenever the new value is null and takes
the new value whenever it is non-null (`coalesce`), while `is_group`
always takes the new observation; the stored contact row coalesces
`phone_number`, `lid` and `push_name` the same way. -/
theorem chat_contact_coalesce (t : ChatTable) (r r2 : ChatRow) (hj : r2.jid = r.jid)
    (cs : List ContactRow) (q q2 : ContactRow) (hw : q2.wa_id = q.wa_id) :
    (∃ s, (upsertChat t r).1.rows.find? (fun c => c.jid == r.jid) = some s ∧
       (upsertChat (upsertChat t r).1 r2).1.rows.find? (fun c => c.jid == r.jid) =
         some { s with
           jid_pn := coalesce r2.jid_pn s.jid_pn,
           name := coalesce r2.name s.name,
           is_group := r2.is_group }) ∧
    (∃ k, (upsertContact cs q).find? (fun c => c.wa_id == q.wa_id) = some k ∧
       (upsertContact (upsertContact cs q) q2).find? (fun c => c.wa_id == q.wa_id) =
         some { k with
           phone_number := coalesce q2.phone_number k.phone_number,
           lid := coalesce q2.lid k.lid,
           push_name := coalesce q2.push_name k.push_name }) := by
  constructor
  · have h1 := find?_upsertChat t r
    have h2 := find?_upsertChat (upsertChat t r).1 r2
    rw [hj] at h2
    refine ⟨_, h1, ?_⟩
    rw [h2, h1]
    rfl
  · have h1 := find?_upsertContact cs q
    have h2 := find?_upsertContact (upsertContact cs q) q2
    rw [hw] at h2
    refine ⟨_, h1, ?_⟩
    rw [h2, h1]
    rfl

/-!
## Classification (C3, C9)
-/

theorem viewOnce_fields_sizeOf_lt (m : Msg) :
    sizeOf m.viewOnceMessage < sizeOf m ∧ sizeOf m.viewOnceMessageV2 < sizeOf m := by
  cases m with
  | mk c etm img vid aud doc stk ctm cam loc llm rcm p1 p3 vo1 vo2 =>
    constructor
    · simp only [Msg.viewOnceMessage, Msg.mk.sizeOf_spec]
      omega
    · simp only [Msg.viewOnceMessageV2, Msg.mk.sizeOf_spec]
      omega

theorem mem_ite {c : Prop} [Decidable c] {a b : String} {L : List String}
    (ha : a ∈ L) (hb : b ∈ L) : (if c then a else b) ∈ L := by
  by_cases h : c
  · rwa [if_pos h]
  · rwa [if_neg h]

theorem extractMessageType_mem_aux :
    ∀ (n : Nat) (om : Option Msg), sizeOf om ≤ n → extractMessageType om ∈ msgTypeList := by
  intro n
  induction n with
  | zero =>
    intro om h
    have := opt_sizeOf_pos om
    omega
  | succ n ih =>
    intro om h
    cases om with
    | none =>
      rw [extractMessageType_none_eq]
      decide
    | some m =>
      have hrec : sizeOf (viewOnceInner m.viewOnceMessage m.viewOnceMessageV2) ≤ n := by
        have h1 := viewOnceInner_sizeOf_le m.viewOnceMessage m.viewOnceMessageV2
        have h2 := viewOnce_fields_sizeOf_lt m
        have hs : sizeOf (some m) = 1 + sizeOf m := by simp
        omega
      rw [extractMessageType_some_eq]
      refine mem_ite (by decide) ?_
      refine mem_ite (by decide) ?_
      refine mem_ite (by decide) ?_
      refine mem_ite (by decide) ?_
      refine mem_ite (by decide) ?_
      refine mem_ite (by decide) ?_
      refine mem_ite (by decide) ?_
      refine mem_ite (by decide) ?_
      refine mem_ite (by decide) ?_
      refine mem_ite (by decide) ?_
      refine mem_ite (by decide) ?_
      refine mem_ite (by decide) ?_
      refine mem_ite (by decide) ?_
      exact mem_ite (ih _ hrec) (by decide)

/-- Every classification lands in the closed type set. -/
theorem extractMessageType_mem (om : Option Msg) : extractMessageType om ∈ msgTypeList :=
  extractMessageType_mem_aux (sizeOf om) om (Nat.le_refl _)

/-- C3 -- Message classification is total and follows the fixed priority
order: `extractMessageType` always returns exactly one member of the
closed type set; a null payload yields "unknown"; each content field,
when it is the first present one in the source's priority order (text
variants, then media, then specialized types), yields its corresponding
type; a view-once wrapper is classified by recursing into its inner
payload; a payload with no known field yields "unknown". -/
theorem extractMessageType_total_priority :
    extractMessageType none = "unknown" ∧
    (∀ om : Option Msg, extractMessageType om ∈ msgTypeList) ∧
    (∀ m : Msg,
      (truthy m.conversation = true → extractMessageType (some m) = "text") ∧
      (truthy m.conversation = false → m.extendedTextMessage.isSome = true →
        extractMessageType (some m) = "text") ∧
      (truthy m.conversation = false → m.extendedTextMessage = none →
        m.imageMessage.isSome = true → extractMessageType (some m) = "image") ∧
      (truthy m.conversation = false → m.extendedTextMessage = none →
        m.imageMessage = none → m.videoMessage.isSome = true →
        extractMessageType (some m) = "video") ∧
      (truthy m.conversation = false → m.extendedTextMessage = none →
        m.imageMessage = none → m.videoMessage = none → m.audioMessage = true →
        extractMessageType (some m) = "audio") ∧
      (truthy m.conversation = false → m.extendedTextMessage = none →
        m.imageMessage = none → m.videoMessage = none → m.audioMessage = false →
        m.documentMessage.isSome = true → extractMessageType (some m) = "document") ∧
      (truthy m.conversation = false → m.extendedTextMessage = none →
        m.imageMessage = none → m.videoMessage = none → m.audioMessage = false →
        m.documentMessage = none → m.stickerMessage = true →
        extractMessageType (some m) = "sticker") ∧
      (truthy m.conversation = false → m.extendedTextMessage = none →
        m.imageMessage = none → m.videoMessage = none → m.audioMessage = false →
        m.documentMessage = none → m.stickerMessage = false → m.contactMessage = true →
        extractMessageType (some m) = "contact") ∧
      (truthy m.conversation = false → m.extendedTextMessage = none →
        m.imageMessage = none → m.videoMessage = none → m.audioMessage = false →
        m.documentMessage = none → m.stickerMessage = false → m.contactMessage = false →
        m.contactsArrayMessage = true → extractMessageType (some m) = "contact") ∧
      (truthy m.conversation = false → m.extendedTextMessage = none →
        m.imageMessage = none → m.videoMessage = none → m.audioMessage = false →
        m.documentMessage = none → m.stickerMessage = false → m.contactMessage = false →
        m.contactsArrayMessage = false → m.locationMessage = true →
        extractMessageType (some m) = "location") ∧
      (truthy m.conversation = false → m.extendedTextMessage = none →
        m.imageMessage = none → m.videoMessage = none → m.audioMessage = false →
        m.documentMessage = none → m.stickerMessage = false → m.contactMessage = false →
        m.contactsArrayMessage = false → m.locationMessage = false →
        m.liveLocationMessage = true → extractMessageType (some m) = "location") ∧
      (truthy m.conversation = false → m.extendedTextMessage = none →
        m.imageMessage = none → m.videoMessage = none → m.audioMessage = false →
        m.documentMessage = none → m.stickerMessage = false → m.contactMessage = false →
        m.contactsArrayMessage = false → m.locationMessage = false →
        m.liveLocationMessage = false → m.reactionMessage = true →
        extractMessageType (some m) = "reaction") ∧
      (truthy m.conversation = false → m.extendedTextMessage = none →
        m.imageMessage = none → m.videoMessage = none → m.audioMessage = false →
        m.documentMessage = none → m.stickerMessage = false → m.contactMessage = false →
        m.contactsArrayMessage = false → m.locationMessage = false →
        m.liveLocationMessage = false → m.reactionMessage = false →
        (m.pollCreationMessage = true ∨ m.pollCreationMessageV3 = true) →
        extractMessageType (some m) = "poll") ∧
      (truthy m.conversation = false → m.extendedTextMessage = none →
        m.imageMessage = none → m.videoMessage = none → m.audioMessage = false →
        m.documentMessage = none → m.stickerMessage = false → m.contactMessage = false →
        m.contactsArrayMessage = false → m.locationMessage = false →
        m.liveLocationMessage = false → m.reactionMessage = false →
        m.pollCreationMessage = false → m.pollCreationMessageV3 = false →
        (m.viewOnceMessage.isSome = true ∨ m.viewOnceMessageV2.isSome = true) →
        extractMessageType (some m) =
          extractMessageType (viewOnceInner m.viewOnceMessage m.viewOnceMessageV2)) ∧
      (truthy m.conversation = false → m.extendedTextMessage = none →
        m.imageMessage = none → m.videoMessage = none → m.audioMessage = false →
        m.documentMessage = none → m.stickerMessage = false → m.contactMessage = false →
        m.contactsArrayMessage = false → m.locationMessage = false →
        m.liveLocationMessage = false → m.reactionMessage = false →
        m.pollCreationMessage = false → m.pollCreationMessageV3 = false →
        m.viewOnceMessage = none → m.viewOnceMessageV2 = none →
        extractMessageType (some m) = "unknown")) := by
  refine ⟨extractMessageType_none_eq, extractMessageType_mem, fun m => ?_⟩
  cases m with
  | mk c etm img vid aud doc stk ctm cam loc llm rcm p1 p3 vo1 vo2 =>
    simp only [Msg.conversation, Msg.extendedTextMessage, Msg.imageMessage, Msg.videoMessage,
      Msg.audioMessage, Msg.documentMessage, Msg.stickerMessage, Msg.contactMessage,
      Msg.contactsArrayMessage, Msg.locationMessage, Msg.liveLocationMessage,
      Msg.reactionMessage, Msg.pollCreationMessage, Msg.pollCreationMessageV3,
      Msg.viewOnceMessage, Msg.viewOnceMessageV2]
    refine ⟨?_, ?_, ?_, ?_, ?_, ?_, ?_, ?_, ?_, ?_, ?_, ?_, ?_, ?_, ?_⟩
    · intro h1
      rw [extractMessageType_some_eq]
      simp [Msg.conversation, h1]
    · intro h1 h2
      rw [extractMessageType_some_eq]
      simp [Msg.conversation, Msg.extendedTextMessage, h1, h2]
    · intro h1 h2 h3
      rw [extractMessageType_some_eq]
      simp [Msg.conversation, Msg.extendedTextMessage, Msg.imageMessage, h1, h2, h3]
    · intro h1 h2 h3 h4
      rw [extractMessageType_some_eq]
      simp [Msg.conversation, Msg.extendedTextMessage, Msg.imageMessage, Msg.videoMessage,
        h1, h2, h3, h4]
    · intro h1 h2 h3 h4 h5
      rw [extractMessageType_some_eq]
      simp [Msg.conversation, Msg.extendedTextMessage, Msg.imageMessage, Msg.videoMessage,
        Msg.audioMessage, h1, h2, h3, h4, h5]
    · intro h1 h2 h3 h4 h5 h6
      rw [extractMessageType_some_eq]
      simp [Msg.conversation, Msg.extendedTextMessage, Msg.imageMessage, Msg.videoMessage,
        Msg.audioMessage, Msg.documentMessage, h1, h2, h3, h4, h5, h6]
    · intro h1 h2 h3 h4 h5 h6 h7
      rw [extractMessageType_some_eq]
      simp [Msg.conversation, Msg.extendedTextMessage, Msg.imageMessage, Msg.videoMessage,
        Msg.audioMessage, Msg.documentMessage, Msg.stickerMessage, h1, h2, h3, h4, h5, h6, h7]
    · intro h1 h2 h3 h4 h5 h6 h7 h8
      rw [extractMessageType_some_eq]
      simp [Msg.conversation, Msg.extendedTextMessage, Msg.imageMessage, Msg.videoMessage,
        Msg.audioMessage, Msg.documentMessage, Msg.stickerMessage, Msg.contactMessage,
        h1, h2, h3, h4, h5, h6, h7, h8]
    · intro h1 h2 h3 h4 h5 h6 h7 h8 h9
      rw [extractMessageType_some_eq]
      simp [Msg.conversation, Msg.extendedTextMessage, Msg.imageMessage, Msg.videoMessage,
        Msg.audioMessage, Msg.documentMessage, Msg.stickerMessage, Msg.contactMessage,
        Msg.contactsArrayMessage, h1, h2, h3, h4, h5, h6, h7, h8, h9]
    · intro h1 h2 h3 h4 h5 h6 h7 h8 h9 h10
      rw [extractMessageType_some_eq]
      simp [Msg.conversation, Msg.extendedTextMessage, Msg.imageMessage, Msg.videoMessage,
        Msg.audioMessage, Msg.documentMessage, Msg.stickerMessage, Msg.contactMessage,
        Msg.contactsArrayMessage, Msg.locationMessage, h1, h2, h3, h4, h5, h6, h7, h8, h9, h10]
    · intro h1 h2 h3 h4 h5 h6 h7 h8 h9 h10 h11
      rw [extractMessageType_some_eq]
      simp [Msg.conversation, Msg.extendedTextMessage, Msg.imageMessage, Msg.videoMessage,
        Msg.audioMessage, Msg.documentMessage, Msg.stickerMessage, Msg.contactMessage,
        Msg.contactsArrayMessage, Msg.locationMessage, Msg.liveLocationMessage,
        h1, h2, h3, h4, h5, h6, h7, h8, h9, h10, h11]
    · intro h1 h2 h3 h4 h5 h6 h7 h8 h9 h10 h11 h12
      rw [extractMessageType_some_eq]
      simp [Msg.conversation, Msg.extendedTextMessage, Msg.imageMessage, Msg.videoMessage,
        Msg.audioMessage, Msg.documentMessage, Msg.stickerMessage, Msg.contactMessage,
        Msg.contactsArrayMessage, Msg.locationMessage, Msg.liveLocationMessage,
        Msg.reactionMessage, h1, h2, h3, h4, h5, h6, h7, h8, h9, h10, h11, h12]
    · intro h1 h2 h3 h4 h5 h6 h7 h8 h9 h10 h11 h12 hp
      rw [extractMessageType_some_eq]
      rcases hp with hp | hp <;>
        simp [Msg.conversation, Msg.extendedTextMessage, Msg.imageMessage, Msg.videoMessage,
          Msg.audioMessage, Msg.documentMessage, Msg.stickerMessage, Msg.contactMessage,
          Msg.contactsArrayMessage, Msg.locationMessage, Msg.liveLocationMessage,
          Msg.reactionMessage, Msg.pollCreationMessage, Msg.pollCreationMessageV3,
          h1, h2, h3, h4, h5, h6, h7, h8, h9, h10, h11, h12, hp]
    · intro h1 h2 h3 h4 h5 h6 h7 h8 h9 h10 h11 h12 h13 h14 hv
      rw [extractMessageType_some_eq]
      rcases hv with hv | hv <;>
        simp [Msg.conversation, Msg.extendedTextMessage, Msg.imageMessage, Msg.videoMessage,
          Msg.audioMessage, Msg.documentMessage, Msg.stickerMessage, Msg.contactMessage,
          Msg.contactsArrayMessage, Msg.locationMessage, Msg.liveLocationMessage,
          Msg.reactionMessage, Msg.pollCreationMessage, Msg.pollCreationMessageV3,
          Msg.viewOnceMessage, Msg.viewOnceMessageV2,
          h1, h2, h3, h4, h5, h6, h7, h8, h9, h10, h11, h12, h13, h14, hv]
    · intro h1 h2 h3 h4 h5 h6 h7 h8 h9 h10 h11 h12 h13 h14 h15 h16
      rw [extractMessageType_some_eq]
      simp [Msg.conversation, Msg.extendedTextMessage, Msg.imageMessage, Msg.videoMessage,
        Msg.audioMessage, Msg.documentMessage, Msg.stickerMessage, Msg.contactMessage,
        Msg.contactsArrayMessage, Msg.locationMessage, Msg.liveLocationMessage,
        Msg.reactionMessage, Msg.pollCreationMessage, Msg.pollCreationMessageV3,
        Msg.viewOnceMessage, Msg.viewOnceMessageV2,
        h1, h2, h3, h4, h5, h6, h7, h8, h9, h10, h11, h12, h13, h14, h15, h16]

/-- Witness for the C3 priority clauses at concrete payloads: an
image-only payload classifies as "image" and a reaction-only payload as
"reaction". -/
theorem extractMessageType_total_priority_witness :
    extractMessageType (some (Msg.mk none none (some none) none false none
      false false false false false false false false none none)) = "image" ∧
    extractMessageType (some (Msg.mk none none none none false none
      false false false false false true false false none none)) = "reaction" :=
  ⟨(extractMessageType_total_priority.2.2 (Msg.mk none none (some none) none false none
      false false false false false false false false none none)).2.2.1 rfl rfl rfl,
   ((extractMessageType_total_priority.2.2 (Msg.mk none none none none false none
      false false false false false true false false none none)).2.2.2.2.2.2.2.2.2.2.2.1)
     rfl rfl rfl rfl rfl rfl rfl rfl rfl rfl rfl rfl⟩

/-- An inner payload carrying any of the five text-bearing fields
(conversation, extended text, or an image/video/document caption slot)
never classifies as "unknown": the priority chain stops at or before the
document check. -/
theorem extractMessageType_some_ne_unknown (inner : Msg)
    (h : truthy inner.conversation = true ∨ inner.extendedTextMessage.isSome = true ∨
      inner.imageMessage.isSome = true ∨ inner.videoMessage.isSome = true ∨
      inner.documentMessage.isSome = true) :
    extractMessageType (some inner) ≠ "unknown" := by
  rw [extractMessageType_some_eq]
  by_cases c1 : truthy inner.conversation = true
  · simp [c1]
  · by_cases c2 : inner.extendedTextMessage.isSome = true
    · simp [c1, c2]
    · by_cases c3 : inner.imageMessage.isSome = true
      · simp [c1, c2, c3]
      · by_cases c4 : inner.videoMessage.isSome = true
        · simp [c1, c2, c3, c4]
        · by_cases c5 : inner.audioMessage = true
          · simp [c1, c2, c3, c4, c5]
          · by_cases c6 : inner.documentMessage.isSome = true
            · simp [c1, c2, c3, c4, c5, c6]
            · rcases h with h | h | h | h | h <;> simp_all

/-- C9 -- Body extraction does not recurse into view-once wrappers,
unlike classification: for a payload whose only content is a view-once
wrapper (either `viewOnceMessage` or `viewOnceMessageV2`, resolved by the
source's `viewOnceMessage?.message ?? viewOnceMessageV2?.message` rule)
whose inner message carries a text-bearing field (conversation, extended
text, or an image/video/document caption slot), `extractMessageType`
returns the inner payload's type — a concrete type, never "unknown" —
while `extractBodyText` (which checks only conversation, extended text
and captions on the outer payload) returns null; so such a message is
stored with a concrete message type but a null body text. -/
theorem viewOnce_type_vs_body (m inner : Msg)
    (h1 : m.conversation = none) (h2 : m.extendedTextMessage = none)
    (h3 : m.imageMessage = none) (h4 : m.videoMessage = none)
    (h5 : m.audioMessage = false) (h6 : m.documentMessage = none)
    (h7 : m.stickerMessage = false) (h8 : m.contactMessage = false)
    (h9 : m.contactsArrayMessage = false) (h10 : m.locationMessage = false)
    (h11 : m.liveLocationMessage = false) (h12 : m.reactionMessage = false)
    (h13 : m.pollCreationMessage = false) (h14 : m.pollCreationMessageV3 = false)
    (h15 : viewOnceInner m.viewOnceMessage m.viewOnceMessageV2 = some inner)
    (h16 : truthy inner.conversation = true ∨ inner.extendedTextMessage.isSome = true ∨
      inner.imageMessage.isSome = true ∨ inner.videoMessage.isSome = true ∨
      inner.documentMessage.isSome = true) :
    extractMessageType (some m) = extractMessageType (some inner) ∧
    extractMessageType (some inner) ≠ "unknown" ∧
    extractBodyText (some m) = none := by
  have hbranch : m.viewOnceMessage.isSome = true ∨ m.viewOnceMessageV2.isSome = true := by
    unfold viewOnceInner at h15
    cases hb1 : m.viewOnceMessage.bind id with
    | some m1 =>
      left
      cases hv : m.viewOnceMessage with
      | none => rw [hv] at hb1; simp [Option.bind] at hb1
      | some o => simp [hv]
    | none =>
      right
      rw [hb1] at h15
      cases hv : m.viewOnceMessageV2 with
      | none => rw [hv] at h15; simp [Option.bind] at h15
      | some o => simp [hv]
  refine ⟨?_, extractMessageType_some_ne_unknown inner h16, ?_⟩
  · rw [extractMessageType_some_eq]
    simp only [h1, h2, h3, h4, h5, h6, h7, h8, h9, h10, h11, h12, h13, h14]
    rcases hbranch with hb | hb <;> simp [truthy, hb, h15]
  · simp [extractBodyText, h1, h2, h3, h4, h6, Option.orElse]

/-- Witness for C9 at two concrete view-once payloads: a V2-wrapped
image-caption payload and a V1-wrapped extended-text payload. -/
theorem viewOnce_type_vs_body_witness :
    (extractMessageType (some (Msg.mk none none none none false none
        false false false false false false false false none
        (some (some (Msg.mk none none (some (some "cap")) none false none
          false false false false false false false false none none))))) =
      extractMessageType (some (Msg.mk none none (some (some "cap")) none false none
        false false false false false false false false none none)) ∧
      extractMessageType (some (Msg.mk none none (some (some "cap")) none false none
        false false false false false false false false none none)) ≠ "unknown" ∧
      extractBodyText (some (Msg.mk none none none none false none
        false false false false false false false false none
        (some (some (Msg.mk none none (some (some "cap")) none false none
          false false false false false false false false none none))))) = none) ∧
    (extractMessageType (some (Msg.mk none none none none false none
        false false false false false false false false
        (some (some (Msg.mk none (some (some "etext")) none none false none
          false false false false false false false false none none))) none)) =
      extractMessageType (some (Msg.mk none (some (some "etext")) none none false none
        false false false false false false false false none none)) ∧
      extractMessageType (some (Msg.mk none (some (some "etext")) none none false none
        false false false false false false false false none none)) ≠ "unknown" ∧
      extractBodyText (some (Msg.mk none none none none false none
        false false false false false false false false
        (some (some (Msg.mk none (some (some "etext")) none none false none
          false false false false false false false false none none))) none)) = none) :=
  ⟨viewOnce_type_vs_body
    (Msg.mk none none none none false none false false false false false false false false
      none (some (some (Msg.mk none none (some (some "cap")) none false none
        false false false false false false false false none none))))
    (Msg.mk none none (some (some "cap")) none false none
      false false false false false false false false none none)
    rfl rfl rfl rfl rfl rfl rfl rfl rfl rfl rfl rfl rfl rfl rfl
    (Or.inr (Or.inr (Or.inl rfl))),
   viewOnce_type_vs_body
    (Msg.mk none none none none false none false false false false false false false false
      (some (some (Msg.mk none (some (some "etext")) none none false none
        false false false false false false false false none none))) none)
    (Msg.mk none (some (some "etext")) none none false none
      false false false false false false false false none none)
    rfl rfl rfl rfl rfl rfl rfl rfl rfl rfl rfl rfl rfl rfl rfl
    (Or.inr (Or.inl rfl))⟩

/-!
## Witnesses for the upsert claims (C1, C2)
-/

/-- Witness for C1: the count after a duplicate delivery into an empty
table is exactly one. -/
theorem upsertMessage_idempotent_merge_witness :
    countMessages
      (upsertMessage
        (upsertMessage []
          { chat_id := 1, wa_message_id := "m1", remote_jid := "jid1",
            participant := some "p1", participant_alt := none, remote_jid_alt := none,
            from_me := false, timestamp := 5, message_type := "text",
            body_text := some "hello", phone_number := some "31", metadata_json := some "raw1" })
        { chat_id := 1, wa_message_id := "m1", remote_jid := "jid1",
          participant := some "p2", participant_alt := some "pa2", remote_jid_alt := none,
          from_me := true, timestamp := 9, message_type := "image",
          body_text := none, phone_number := none, metadata_json := none })
      1 "m1" = 1 :=
  (upsertMessage_idempotent_merge []
    { chat_id := 1, wa_message_id := "m1", remote_jid := "jid1",
      participant := some "p1", participant_alt := none, remote_jid_alt := none,
      from_me := false, timestamp := 5, message_type := "text",
      body_text := some "hello", phone_number := some "31", metadata_json := some "raw1" }
    { chat_id := 1, wa_message_id := "m1", remote_jid := "jid1",
      participant := some "p2", participant_alt := some "pa2", remote_jid_alt := none,
      from_me := true, timestamp := 9, message_type := "image",
      body_text := none, phone_number := none, metadata_json := none }
    (by decide) rfl rfl).1

/-- Witness for C2 at concrete chat and contact rows. -/
theorem chat_contact_coalesce_witness :
    (∃ s, (upsertChat { rows := [], nextId := 1 }
        { jid := "j1", jid_pn := none, name := some "Alice", is_group := false }).1.rows.find?
          (fun c => c.jid == "j1") = some s ∧
      (upsertChat (upsertChat { rows := [], nextId := 1 }
          { jid := "j1", jid_pn := none, name := some "Alice", is_group := false }).1
        { jid := "j1", jid_pn := some "pn1", name := none, is_group := true }).1.rows.find?
          (fun c => c.jid == "j1") =
        some { s with
          jid_pn := coalesce (some "pn1") s.jid_pn,
          name := coalesce none s.name,
          is_group := true }) ∧
    (∃ k, (upsertContact []
        { wa_id := "w1", phone_number := none, lid := none, push_name := some "Bob" }).find?
          (fun c => c.wa_id == "w1") = some k ∧
      (upsertContact (upsertContact []
          { wa_id := "w1", phone_number := none, lid := none, push_name := some "Bob" })
        { wa_id := "w1", phone_number := some "316", lid := some "l1", push_name := none }).find?
          (fun c => c.wa_id == "w1") =
        some { k with
          phone_number := coalesce (some "316") k.phone_number,
          lid := coalesce (some "l1") k.lid,
          push_name := coalesce none k.push_name }) :=
  chat_contact_coalesce { rows := [], nextId := 1 }
    { jid := "j1", jid_pn := none, name := some "Alice", is_group := false }
    { jid := "j1", jid_pn := some "pn1", name := none, is_group := true } rfl
    []
    { wa_id := "w1", phone_number := none, lid := none, push_name := some "Bob" }
    { wa_id := "w1", phone_number := some "316", lid := some "l1", push_name := none } rfl

/-!
## Timestamp policy (C4)
-/

/-- C4 counterexample -- the claim "a carried timestamp whose instant is
in the past is preserved exactly" fails at a carried timestamp of zero
seconds: the instant (epoch, 0 ms) is in the past of processing time
1000000 ms, yet the stored value is the processing time, because the
JavaScript presence check `if (msg?.messageTimestamp)` treats the number
0 as absent. -/
theorem messageRowTimestamp_zero_counterexample :
    (0 : Int) * 1000 ≤ 1000000 + 86400000 ∧
    messageRowTimestamp 1000000 (some 0) = 1000000 ∧
    messageRowTimestamp 1000000 (some 0) ≠ 0 * 1000 := by
  decide

/-- C4 (amended) -- Timestamp policy of `messageToRow` for a non-zero
carried timestamp: an instant strictly more than 24 hours in the future
of processing time is replaced by the processing time; an instant within
the next 24 hours or in the past is preserved exactly; a missing or zero
timestamp (zero fails the JavaScript truthiness presence check) yields
the processing time. -/
theorem messageRowTimestamp_policy (now t : Int) (ht : t ≠ 0) :
    (t * 1000 > now + 86400000 → messageRowTimestamp now (some t) = now) ∧
    (t * 1000 ≤ now + 86400000 → messageRowTimestamp now (some t) = t * 1000) ∧
    messageRowTimestamp now none = now ∧
    messageRowTimestamp now (some 0) = now := by
  refine ⟨?_, ?_, rfl, ?_⟩
  · intro h
    simp only [messageRowTimestamp]
    rw [if_pos ht, if_pos h]
  · intro h
    simp only [messageRowTimestamp]
    rw [if_pos ht, if_neg (by omega)]
  · simp [messageRowTimestamp]

/-- Witness for C4 (amended) at concrete instants. -/
theorem messageRowTimestamp_policy_witness :
    messageRowTimestamp 0 (some 2) = 2 * 1000 ∧
    messageRowTimestamp 0 (some 100000) = 0 ∧
    messageRowTimestamp 0 none = 0 :=
  ⟨(messageRowTimestamp_policy 0 2 (by decide)).2.1 (by decide),
   (messageRowTimestamp_policy 0 100000 (by decide)).1 (by decide),
   (messageRowTimestamp_policy 0 2 (by decide)).2.2.1⟩

/-!
## Identity-mapping resolution (C5, C10)
-/

theorem lid_chat_step (rows : List ChatStored) (lid pn : String) (c : ChatStored)
    (hc : rows.find? (fun c0 => c0.jid == lid) = some c) :
    (rows.map (fun c0 =>
        if c0.jid == lid && c0.jid_pn.isNone then { c0 with jid_pn := some pn } else c0)).find?
        (fun c0 => c0.jid == lid) =
      some (if c.jid_pn.isNone then { c with jid_pn := some pn } else c) := by
  rw [find?_map_congr _ _ _ (fun (a : ChatStored) => by
    cases hpa : a.jid == lid && a.jid_pn.isNone with
    | true => simp_all
    | false => simp [hpa])]
  rw [hc]
  have hj : c.jid = lid := by simpa using List.find?_some hc
  cases hn : c.jid_pn with
  | none => simp [hj, hn]
  | some v => simp [hj, hn]

/-- C5 -- First-resolution-wins for the chat alternate key: a stored chat
row whose external key is the anonymized identifier and whose alternate
key is null gets its alternate key set to the phone-linked key by an
identity-mapping-resolution event; a second resolution event for the same
chat, even with a different phone-linked key, leaves the alternate key
unchanged (the update is guarded by `jid_pn IS NULL`). -/
theorem lidMapping_first_resolution_wins (s : LidState) (lid pn1 pn2 : String)
    (c : ChatStored)
    (hc : s.chats.rows.find? (fun c0 => c0.jid == lid) = some c)
    (hn : c.jid_pn = none) :
    (lidMappingUpdate s lid pn1).chats.rows.find? (fun c0 => c0.jid == lid) =
      some { c with jid_pn := some pn1 } ∧
    (lidMappingUpdate (lidMappingUpdate s lid pn1) lid pn2).chats.rows.find?
        (fun c0 => c0.jid == lid) =
      some { c with jid_pn := some pn1 } := by
  have h1 : (lidMappingUpdate s lid pn1).chats.rows.find? (fun c0 => c0.jid == lid) =
      some { c with jid_pn := some pn1 } := by
    have := lid_chat_step s.chats.rows lid pn1 c hc
    simpa [lidMappingUpdate, hn] using this
  refine ⟨h1, ?_⟩
  have h2 := lid_chat_step (lidMappingUpdate s lid pn1).chats.rows lid pn2
    { c with jid_pn := some pn1 } h1
  simpa [lidMappingUpdate] using h2

/-- Witness for C5 at a concrete anonymized-keyed chat. -/
theorem lidMapping_first_resolution_wins_witness :
    (lidMappingUpdate
        { chats := { rows := [{ id := 1, jid := "abc@lid", jid_pn := none,
                                name := none, is_group := false }], nextId := 2 },
          contacts := [] }
        "abc@lid" "31612345678@s.whatsapp.net").chats.rows.find?
        (fun c0 => c0.jid == "abc@lid") =
      some { id := 1, jid := "abc@lid", jid_pn := some "31612345678@s.whatsapp.net",
             name := none, is_group := false } ∧
    (lidMappingUpdate
        (lidMappingUpdate
          { chats := { rows := [{ id := 1, jid := "abc@lid", jid_pn := none,
                                  name := none, is_group := false }], nextId := 2 },
            contacts := [] }
          "abc@lid" "31612345678@s.whatsapp.net")
        "abc@lid" "31687654321@s.whatsapp.net").chats.rows.find?
        (fun c0 => c0.jid == "abc@lid") =
      some { id := 1, jid := "abc@lid", jid_pn := some "31612345678@s.whatsapp.net",
             name := none, is_group := false } :=
  lidMapping_first_resolution_wins
    { chats := { rows := [{ id := 1, jid := "abc@lid", jid_pn := none,
                            name := none, is_group := false }], nextId := 2 },
      contacts := [] }
    "abc@lid" "31612345678@s.whatsapp.net" "31687654321@s.whatsapp.net"
    { id := 1, jid := "abc@lid", jid_pn := none, name := none, is_group := false }
    (by decide) rfl

/-- C10 -- Latest-resolution-wins for the contact phone number, asymmetric
with the chat alternate key: after two identity-mapping-resolution events
for the same anonymized identifier, the contact row keyed on it carries
the phone number derived from the second event (the upsert coalesces with
an always-non-null new value, so it overwrites), while a chat whose
alternate key was already set keeps its original value through both
events. -/
theorem lidMapping_contact_latest_wins (s : LidState) (lid pn1 pn2 v : String)
    (c : ChatStored)
    (hc : s.chats.rows.find? (fun c0 => c0.jid == lid) = some c)
    (hv : c.jid_pn = some v) :
    (∃ k, (lidMappingUpdate (lidMappingUpdate s lid pn1) lid pn2).contacts.find?
        (fun k0 => k0.wa_id == lid) = some k ∧
      k.phone_number = some (replaceFirst pn2 "@s.whatsapp.net")) ∧
    (lidMappingUpdate (lidMappingUpdate s lid pn1) lid pn2).chats.rows.find?
        (fun c0 => c0.jid == lid) = some c := by
  constructor
  · have h2 := find?_upsertContact (lidMappingUpdate s lid pn1).contacts
      { wa_id := lid, phone_number := some (replaceFirst pn2 "@s.whatsapp.net"),
        lid := some lid, push_name := none }
    refine ⟨_, h2, ?_⟩
    cases hm : (lidMappingUpdate s lid pn1).contacts.find?
        (fun c0 => c0.wa_id ==
          ({ wa_id := lid, phone_number := some (replaceFirst pn2 "@s.whatsapp.net"),
             lid := some lid, push_name := none } : ContactRow).wa_id) with
    | some k0 => simp [hm, mergeContactOnConflict, coalesce]
    | none => simp [hm]
  · have h1 : (lidMappingUpdate s lid pn1).chats.rows.find? (fun c0 => c0.jid == lid) =
        some c := by
      have := lid_chat_step s.chats.rows lid pn1 c hc
      simpa [lidMappingUpdate, hv] using this
    have h2 := lid_chat_step (lidMappingUpdate s lid pn1).chats.rows lid pn2 c h1
    simpa [lidMappingUpdate, hv] using h2

/-- Witness for C10 at a concrete state: the second resolved phone number
wins on the contact while the chat alternate key is untouched. -/
theorem lidMapping_contact_latest_wins_witness :
    (∃ k, (lidMappingUpdate
        (lidMappingUpdate
          { chats := { rows := [{ id := 3, jid := "x@lid", jid_pn := some "kept@s.whatsapp.net",
                                  name := none, is_group := false }], nextId := 4 },
            contacts := [] }
          "x@lid" "31611111111@s.whatsapp.net")
        "x@lid" "31622222222@s.whatsapp.net").contacts.find?
        (fun k0 => k0.wa_id == "x@lid") = some k ∧
      k.phone_number = some (replaceFirst "31622222222@s.whatsapp.net" "@s.whatsapp.net")) ∧
    (lidMappingUpdate
        (lidMappingUpdate
          { chats := { rows := [{ id := 3, jid := "x@lid", jid_pn := some "kept@s.whatsapp.net",
                                  name := none, is_group := false }], nextId := 4 },
            contacts := [] }
          "x@lid" "31611111111@s.whatsapp.net")
        "x@lid" "31622222222@s.whatsapp.net").chats.rows.find?
        (fun c0 => c0.jid == "x@lid") =
      some { id := 3, jid := "x@lid", jid_pn := some "kept@s.whatsapp.net",
             name := none, is_group := false } :=
  lidMapping_contact_latest_wins
    { chats := { rows := [{ id := 3, jid := "x@lid", jid_pn := some "kept@s.whatsapp.net",
                            name := none, is_group := false }], nextId := 4 },
      contacts := [] }
    "x@lid" "31611111111@s.whatsapp.net" "31622222222@s.whatsapp.net"
    "kept@s.whatsapp.net"
    { id := 3, jid := "x@lid", jid_pn := some "kept@s.whatsapp.net",
      name := none, is_group := false }
    (by decide) rfl

/-!
## Idle completion (C6)
-/

theorem batches_foldl_aux (bs : List Int) : ∀ (t : Int), chainWithin t bs = true →
    (bs.map (fun b => (b, SyncEventKind.historyBatch))).foldl
        (fun s e => handleSyncEvent s e.1 e.2)
        { idleDeadline := some (t + IDLE_TIMEOUT_MS), completedAt := none } =
      { idleDeadline := some (lastBatchTime t bs + IDLE_TIMEOUT_MS), completedAt := none } := by
  induction bs with
  | nil =>
    intro t _
    simp [lastBatchTime]
  | cons b rest ih =>
    intro t h
    simp only [chainWithin, Bool.and_eq_true, decide_eq_true_eq] at h
    obtain ⟨⟨h1, h2⟩, h3⟩ := h
    simp only [List.map_cons, List.foldl_cons]
    have hstep : handleSyncEvent
        { idleDeadline := some (t + IDLE_TIMEOUT_MS), completedAt := none }
        b SyncEventKind.historyBatch =
        { idleDeadline := some (b + IDLE_TIMEOUT_MS), completedAt := none } := by
      unfold handleSyncEvent fireIfDue resetIdleTimer
      simp only []
      rw [if_neg (by omega)]
    rw [hstep]
    have hrest := ih b h3
    have hlast : lastBatchTime t (b :: rest) = lastBatchTime b rest := rfl
    rw [hlast]
    exact hrest

/-- C6 -- Idle-completion timing in backfill mode: the idle timer is
started by the connection-open event and reset by every received batch;
provided each batch arrives before the pending timer is due, the session
completes exactly `IDLE_TIMEOUT_MS` (30 s) after the last batch (or after
connection open when no batch arrives) and not before: running the
session until any instant `endT` reports completion exactly when `endT`
has reached that due time, with the completion instant equal to it. -/
theorem idle_completion (t0 endT : Int) (bs : List Int)
    (h : chainWithin t0 bs = true) :
    (runSync ((t0, SyncEventKind.connectionOpen) ::
        bs.map (fun b => (b, SyncEventKind.historyBatch))) endT).completedAt =
      if lastBatchTime t0 bs + IDLE_TIMEOUT_MS ≤ endT
      then some (lastBatchTime t0 bs + IDLE_TIMEOUT_MS) else none := by
  unfold runSync
  simp only [List.foldl_cons]
  have hopen : handleSyncEvent initSyncCtl t0 SyncEventKind.connectionOpen =
      { idleDeadline := some (t0 + IDLE_TIMEOUT_MS), completedAt := none } := rfl
  rw [hopen, batches_foldl_aux bs t0 h]
  by_cases hle : lastBatchTime t0 bs + IDLE_TIMEOUT_MS ≤ endT
  · simp [fireIfDue, hle]
  · simp [fireIfDue, hle]

/-- Witness for C6 at the spec's scenario: connection open at t = 0 s,
batches at t = 0 s and t = 10 s, nothing afterwards; completion is
reported at t = 40 s and not at t = 39.999 s. -/
theorem idle_completion_witness :
    (runSync [(0, SyncEventKind.connectionOpen), (0, SyncEventKind.historyBatch),
        (10000, SyncEventKind.historyBatch)] 40000).completedAt = some 40000 ∧
    (runSync [(0, SyncEventKind.connectionOpen), (0, SyncEventKind.historyBatch),
        (10000, SyncEventKind.historyBatch)] 39999).completedAt = none := by
  have h1 := idle_completion 0 40000 [0, 10000] (by decide)
  have h2 := idle_completion 0 39999 [0, 10000] (by decide)
  simp only [List.map_cons, List.map_nil, lastBatchTime, List.foldl_cons, List.foldl_nil,
    IDLE_TIMEOUT_MS] at h1 h2
  norm_num at h1 h2
  exact ⟨h1, h2⟩

/-!
## Logged-out handling (C7)
-/

/-- C7 -- Logged-out is fatal in both modes: on a connection-close event
carrying the logged-out disconnect reason, the backfill controller and
the live controller both exit with the non-zero status 1 and an
operator-facing message, and neither reconnects. -/
theorem loggedOut_fatal_both_modes :
    syncHistoryOnClose (some loggedOutCode) =
      CloseOutcome.exitWith 1 "[sync] Logged out. Delete auth_state/ and re-scan." ∧
    listenOnClose (some loggedOutCode) =
      CloseOutcome.exitWith 1 "[listen] Logged out. Delete auth_state/ and re-scan." ∧
    (1 : Nat) ≠ 0 :=
  ⟨rfl, rfl, by decide⟩

/-!
## Message lookup (C8)
-/

/-- Modelled from the spec: what it would mean for a lookup result to
"contain" the stored body text, as section 4.2's
`lookupMessageByKey -> {externalMessageId, bodyText, rawPayload}`
interface demands — some component of the returned value equals it.
Used only to compare the code's actual result shape against the spec's
claimed one. -/
def lookupResultCarries (res : LookupResult) (v : String) : Bool :=
  res.key_remoteJid == v || res.key_id == v || res.message == some v

/-- C8 counterexample -- the claim says the result of a successful lookup
contains the stored body text; at this concrete store the message exists
with body text "hello-body", the lookup succeeds, yet no component of the
returned value (`key.remoteJid`, `key.id`, `message`) carries it: the
code returns only the key and the raw payload snapshot. -/
theorem getMessageByKey_no_bodyText :
    getMessageByKey
        [{ id := 1, jid := "chat1", jid_pn := none, name := none, is_group := false }]
        [{ chat_id := 1, wa_message_id := "m1", remote_jid := "chat1", participant := none,
           participant_alt := none, remote_jid_alt := none, from_me := false, timestamp := 0,
           message_type := "text", body_text := some "hello-body", phone_number := none,
           metadata_json := some "raw-payload" }]
        "chat1" "m1" =
      some { key_remoteJid := "chat1", key_id := "m1", message := some "raw-payload" } ∧
    (([{ chat_id := 1, wa_message_id := "m1", remote_jid := "chat1", participant := none,
         participant_alt := none, remote_jid_alt := none, from_me := false, timestamp := 0,
         message_type := "text", body_text := some "hello-body", phone_number := none,
         metadata_json := some "raw-payload" }] : List MessageRow).find?
          (fun s => s.chat_id == 1 && s.wa_message_id == "m1")).map
        (fun s => s.body_text) = some (some "hello-body") ∧
    lookupResultCarries
      { key_remoteJid := "chat1", key_id := "m1", message := some "raw-payload" }
      "hello-body" = false := by
  refine ⟨?_, ?_, ?_⟩ <;> decide

/-- C8 (amended) -- `getMessageByKey` behaviour: an unknown chat external
key yields null; a known chat (with the positive surrogate id the serial
column assigns) holding no message with the external id yields null; when
the message exists the result is non-null and carries the external
message id and the raw payload snapshot (absent when the stored snapshot
is null) — the stored body text is not part of the result. -/
theorem getMessageByKey_lookup (chats : List ChatStored) (msgs : List MessageRow)
    (rj mid : String) :
    (chats.find? (fun c => c.jid == rj) = none →
      getMessageByKey chats msgs rj mid = none) ∧
    (∀ c, chats.find? (fun c0 => c0.jid == rj) = some c → c.id ≠ 0 →
      msgs.find? (fun s => s.chat_id == c.id && s.wa_message_id == mid) = none →
      getMessageByKey chats msgs rj mid = none) ∧
    (∀ c row, chats.find? (fun c0 => c0.jid == rj) = some c → c.id ≠ 0 →
      msgs.find? (fun s => s.chat_id == c.id && s.wa_message_id == mid) = some row →
      getMessageByKey chats msgs rj mid =
        some { key_remoteJid := rj, key_id := row.wa_message_id,
               message := row.metadata_json }) := by
  refine ⟨?_, ?_, ?_⟩
  · intro h
    simp [getMessageByKey, getChatIdByJid, h]
  · intro c hc hid hm
    simp [getMessageByKey, getChatIdByJid, hc, hid, hm]
  · intro c row hc hid hm
    simp [getMessageByKey, getChatIdByJid, hc, hid, hm]

/-- Witness for C8 (amended) at a concrete store: a null-chat lookup, and
a successful lookup whose result carries the id and a null payload. -/
theorem getMessageByKey_lookup_witness :
    getMessageByKey [] [] "nochat" "m0" = none ∧
    getMessageByKey
        [{ id := 2, jid := "c2", jid_pn := none, name := none, is_group := false }]
        [{ chat_id := 2, wa_message_id := "m2", remote_jid := "c2", participant := none,
           participant_alt := none, remote_jid_alt := none, from_me := false, timestamp := 7,
           message_type := "text", body_text := some "b2", phone_number := none,
           metadata_json := none }]
        "c2" "m2" =
      some { key_remoteJid := "c2", key_id := "m2", message := none } :=
  ⟨(getMessageByKey_lookup [] [] "nochat" "m0").1 rfl,
   (getMessageByKey_lookup
      [{ id := 2, jid := "c2", jid_pn := none, name := none, is_group := false }]
      [{ chat_id := 2, wa_message_id := "m2", remote_jid := "c2", participant := none,
         participant_alt := none, remote_jid_alt := none, from_me := false, timestamp := 7,
         message_type := "text", body_text := some "b2", phone_number := none,
         metadata_json := none }]
      "c2" "m2").2.2
     { id := 2, jid := "c2", jid_pn := none, name := none, is_group := false }
     { chat_id := 2, wa_message_id := "m2", remote_jid := "c2", participant := none,
       participant_alt := none, remote_jid_alt := none, from_me := false, timestamp := 7,
       message_type := "text", body_text := some "b2", phone_number := none,
       metadata_json := none }
     (by decide) (by decide) (by decide)⟩

end WaSync
